import Mathlib

/-!
Verification development for the `gerald-gateway` BNPL decision gateway.

The Python source is shallowly embedded:

* calendar days and timestamps are integers (the code normalizes
  `datetime` values to calendar days before using them);
* cent amounts are integers; float scores are rationals; the Gaussian
  scoring (which genuinely needs `exp`) is over the reals;
* Python's floor division `//` and modulo `%` are `Int.fdiv` / `Int.fmod`;
* `uuid4()` and `datetime.now()` are modelled as explicitly passed fresh
  values (the code never inspects them);
* Python's `round(x, 3)` is modelled by `qround3` / `rround3`
  (scale by 1000, round to an integer, divide by 1000); Python rounds
  half-to-even while `round` rounds half-up, but no value in this
  development sits on a tie;
* fallible constructors are embedded in `Except`; Python dicts keyed by
  days are embedded as functions `ℤ → Option ℤ`.
-/

namespace Gerald

/-- Modelled from the spec: the `InternalTransaction` record consumed by the
domain services (`domain/services/internal_transactions.py` is not in the
source tree; the spec's §3 data model gives its fields: date (calendar day),
amount_cents, type ∈ {debit, credit}, balance_cents signed and nullable,
nsf flag, description, category, merchant). -/
structure InternalTransaction where
  transaction_id : String
  date : ℤ
  amount_cents : ℤ
  type : String
  balance_cents : Option ℤ
  nsf : Bool
  description : String
  category : String
  merchant : String
deriving DecidableEq, Repr

/-- `Normalization.normalize_and_sort_trxns` (domain/services/normalization.py):
dates are already calendar days in this embedding, so normalization is the
stable sort by calendar day (Python's `sorted` is stable, as is
`List.mergeSort`). -/
def normalize_and_sort_trxns (ts : List InternalTransaction) : List InternalTransaction :=
  ts.mergeSort (fun a b => a.date ≤ b.date)

/-- One step of the loop body of `BasicsFeatures.fill_days_with_carry_forward`:
the rolling last-known balance is updated by every transaction that reports a
balance, and a day is recorded at its first transaction only (first-of-day
policy), taking that transaction's reported balance or, failing that, the
rolling balance. -/
def fill_days_aux (m : ℤ → Option ℤ) (last_known_balance : ℤ) :
    List InternalTransaction → (ℤ → Option ℤ)
  | [] => m
  | t :: ts =>
    let last_known' := match t.balance_cents with
      | some b => b
      | none => last_known_balance
    let m' := if (m t.date).isSome then m
      else fun d => if d = t.date then
        some (match t.balance_cents with
          | some b => b
          | none => last_known_balance)
        else m d
    fill_days_aux m' last_known' ts

/-- `BasicsFeatures.fill_days_with_carry_forward` (basics_features.py:39-54),
with the Python dict embedded as a finite map on days. -/
def fill_days_with_carry_forward (ts : List InternalTransaction) : ℤ → Option ℤ :=
  fill_days_aux (fun _ => none) 0 ts

/-- The day loop of `BasicsFeatures.calculate_avg_daily_balance`
(basics_features.py:30-36): for each of `n` consecutive days starting at `d`,
emit the day's recorded balance if the day is in the map (updating
`last_known`), else the last known value (`0` before any day was seen). -/
def daily_balances (m : ℤ → Option ℤ) : ℤ → ℕ → Option ℤ → List ℤ
  | _, 0, _ => []
  | d, n + 1, last_known =>
    match m d with
    | some b => b :: daily_balances m (d + 1) n (some b)
    | none => last_known.getD 0 :: daily_balances m (d + 1) n last_known

/-- `BasicsFeatures.calculate_avg_daily_balance` (basics_features.py:18-37).
Returns `none` on an empty list, where the source raises `IndexError`
(callers guard emptiness first). -/
def calculate_avg_daily_balance (ts : List InternalTransaction) : Option ℚ :=
  match normalize_and_sort_trxns ts with
  | [] => none
  | t0 :: rest =>
    let trxns := t0 :: rest
    let m := fill_days_with_carry_forward trxns
    let endDate := ((trxns.getLast?).getD t0).date
    let num_days := (endDate - t0.date).toNat + 1
    let bs := daily_balances m t0.date num_days none
    some ((bs.sum : ℚ) / (max 1 bs.length : ℕ))

/-! Claim-side definitions for the average-daily-balance rule, written from
the spec's words: "the day's balance is the first transaction-reported
`balance_cents` on `d`; if none is reported on `d`, carry forward the last
known balance (initial carry = 0)". -/

/-- The first balance reported by any transaction on day `d`. -/
def first_reported_balance_on (s : List InternalTransaction) (d : ℤ) : Option ℤ :=
  ((s.filter (fun t => t.date = d)).filterMap (fun t => t.balance_cents)).head?

/-- Thread a running balance through a list of transactions: each
transaction that reports a balance replaces the running value. -/
def running_balance (c : ℤ) (l : List InternalTransaction) : ℤ :=
  l.foldl (fun acc t => t.balance_cents.getD acc) c

/-- The last balance reported by any transaction strictly before day `d`
(`0` if none): the spec's "last known balance (initial carry = 0)". -/
def last_reported_before (s : List InternalTransaction) (d : ℤ) : ℤ :=
  running_balance 0 (s.filter (fun t => t.date < d))

/-- Day value as the claim states it: the first reported balance on the day,
else the carry. -/
def claimed_day_balance (s : List InternalTransaction) (d : ℤ) : ℤ :=
  (first_reported_balance_on s d).getD (last_reported_before s d)

/-- Average daily balance as the claim states it: mean of
`claimed_day_balance` over every day of the inclusive range. -/
def claimed_avg (ts : List InternalTransaction) : Option ℚ :=
  match normalize_and_sort_trxns ts with
  | [] => none
  | t0 :: rest =>
    let s := t0 :: rest
    let endDate := ((s.getLast?).getD t0).date
    let num_days := (endDate - t0.date).toNat + 1
    let vs := (List.range num_days).map (fun i => claimed_day_balance s (t0.date + i))
    some ((vs.sum : ℚ) / (num_days : ℕ))

/-- Amended day valuation, matching the code: a day with transactions takes
the balance reported by its *first* transaction or, when that transaction
reports none, the last balance reported by any earlier-day transaction
(`0` if none). -/
def amended_present_value (s : List InternalTransaction) (d : ℤ) : ℤ :=
  match (s.filter (fun t => t.date = d)).head? with
  | some t => t.balance_cents.getD (last_reported_before s d)
  | none => 0

/-- Amended day sequence: a day without transactions repeats the previous
day's value (`prev`, initially `0`). -/
def amended_day_values (s : List InternalTransaction) : ℤ → ℕ → ℤ → List ℤ
  | _, 0, _ => []
  | d, n + 1, prev =>
    let v := if s.filter (fun t => t.date = d) = [] then prev
      else amended_present_value s d
    v :: amended_day_values s (d + 1) n v

/-- Average daily balance as amended: mean of the amended day values over
the inclusive day range of the sorted transactions. -/
def amended_avg (ts : List InternalTransaction) : Option ℚ :=
  match normalize_and_sort_trxns ts with
  | [] => none
  | t0 :: rest =>
    let s := t0 :: rest
    let endDate := ((s.getLast?).getD t0).date
    let num_days := (endDate - t0.date).toNat + 1
    some (((amended_day_values s t0.date num_days 0).sum : ℚ) / (num_days : ℕ))

/-- Transactions listed in nondecreasing calendar-day order. -/
def SortedByDate (s : List InternalTransaction) : Prop :=
  s.Pairwise (fun a b => a.date ≤ b.date)

lemma running_balance_cons (c : ℤ) (t : InternalTransaction)
    (l : List InternalTransaction) :
    running_balance c (t :: l) = running_balance (t.balance_cents.getD c) l := by
  simp [running_balance, List.foldl_cons]

lemma filter_eq_day_cons_pos (t : InternalTransaction)
    (ts : List InternalTransaction) (d : ℤ) (h : t.date = d) :
    (t :: ts).filter (fun u => u.date = d) =
      t :: ts.filter (fun u => u.date = d) := by
  simp [List.filter_cons, h]

lemma filter_eq_day_cons_neg (t : InternalTransaction)
    (ts : List InternalTransaction) (d : ℤ) (h : ¬t.date = d) :
    (t :: ts).filter (fun u => u.date = d) = ts.filter (fun u => u.date = d) := by
  simp [List.filter_cons, h]

lemma filter_lt_day_cons_pos (t : InternalTransaction)
    (ts : List InternalTransaction) (d : ℤ) (h : t.date < d) :
    (t :: ts).filter (fun u => u.date < d) =
      t :: ts.filter (fun u => u.date < d) := by
  simp [List.filter_cons, h]

lemma filter_lt_day_cons_neg (t : InternalTransaction)
    (ts : List InternalTransaction) (d : ℤ) (h : ¬t.date < d) :
    (t :: ts).filter (fun u => u.date < d) = ts.filter (fun u => u.date < d) := by
  simp [List.filter_cons, h]

lemma normalize_sorted (ts : List InternalTransaction) :
    SortedByDate (normalize_and_sort_trxns ts) := by
  have h := @List.sorted_mergeSort InternalTransaction
    (fun a b => a.date ≤ b.date)
    (fun a b c h₁ h₂ => by
      simp only [decide_eq_true_eq] at h₁ h₂ ⊢; omega)
    (fun a b => by
      simp only [Bool.or_eq_true, decide_eq_true_eq]; omega) ts
  exact h.imp (fun hab => by simpa using hab)

/-- Characterization of the first-of-day map built by
`fill_days_with_carry_forward` on sorted input, generalized over the
accumulating map and rolling balance. -/
lemma fill_days_aux_eq (s : List InternalTransaction) :
    ∀ (m : ℤ → Option ℤ) (carry : ℤ), SortedByDate s → ∀ d,
    fill_days_aux m carry s d =
      if (m d).isSome then m d
      else ((s.filter (fun t => t.date = d)).head?).map
        (fun t => t.balance_cents.getD
          (running_balance carry (s.filter (fun u => u.date < d)))) := by
  induction s with
  | nil =>
    intro m carry _ d
    cases h : m d <;> simp [fill_days_aux, h]
  | cons t ts ih =>
    intro m carry hs d
    obtain ⟨hle, hts⟩ := List.pairwise_cons.mp hs
    show fill_days_aux
      (if (m t.date).isSome then m
        else fun e => if e = t.date then
          some (match t.balance_cents with
            | some b => b
            | none => carry)
          else m e)
      (match t.balance_cents with
        | some b => b
        | none => carry) ts d = _
    rw [ih _ _ hts d]
    by_cases hmd : (m d).isSome
    · -- the day is already recorded: everything returns `m d`
      by_cases hmt : (m t.date).isSome
      · simp [hmt, hmd]
      · by_cases hdt : d = t.date
        · exact absurd (hdt ▸ hmd) hmt
        · simp [hmt, hmd, hdt]
    · rw [Option.not_isSome_iff_eq_none] at hmd
      by_cases hdt : d = t.date
      · -- the head transaction's own day
        have hmt : ¬(m t.date).isSome := by rw [← hdt, hmd]; simp
        have hfilt : ts.filter (fun u => u.date < d) = [] := by
          refine List.filter_eq_nil_iff.mpr ?_
          intro u hu
          have h1 := hle u hu
          simp only [decide_eq_true_eq]
          omega
        have hm'd : (if (m t.date).isSome then m
            else fun e => if e = t.date then
              some (match t.balance_cents with
                | some b => b
                | none => carry)
              else m e) d =
            some (match t.balance_cents with
              | some b => b
              | none => carry) := by
          simp [hmt, hdt]
        rw [hm'd]
        have hconslt : (t :: ts).filter (fun u => u.date < d) =
            ts.filter (fun u => u.date < d) :=
          filter_lt_day_cons_neg t ts d (by omega)
        rw [hmd, filter_eq_day_cons_pos t ts d hdt.symm, hconslt, hfilt]
        simp only [Option.isSome_some, if_true, Option.isSome_none,
          Bool.false_eq_true, if_false, List.head?_cons, Option.map_some']
        rcases t.balance_cents with _ | b <;>
          simp [running_balance, Option.getD]
      · -- a different day: drop the head transaction on both sides
        have hm'd : (if (m t.date).isSome then m
            else fun e => if e = t.date then
              some (match t.balance_cents with
                | some b => b
                | none => carry)
              else m e) d = m d := by
          by_cases hmt : (m t.date).isSome <;> simp [hmt, hdt]
        rw [hm'd, hmd]
        rw [filter_eq_day_cons_neg t ts d (fun h => hdt h.symm)]
        simp only [Option.isSome_none, Bool.false_eq_true, if_false]
        cases hh : (ts.filter (fun u => u.date = d)).head? with
        | none => simp [hh]
        | some u =>
          have hu : u ∈ ts.filter (fun u => u.date = d) := List.mem_of_mem_head? hh
          have hud : u.date = d := by
            have h2 := List.of_mem_filter hu
            simpa using h2
          have hut : t.date < d := by
            have huts : u ∈ ts := List.mem_of_mem_filter hu
            have h3 := hle u huts
            rcases lt_or_eq_of_le h3 with h | h
            · omega
            · exact absurd (by omega : d = t.date) hdt
          rw [filter_lt_day_cons_pos t ts d hut, running_balance_cons]
          rcases t.balance_cents with _ | b <;> simp [hh]

lemma fill_days_eq (s : List InternalTransaction) (hs : SortedByDate s) (d : ℤ) :
    fill_days_with_carry_forward s d =
      ((s.filter (fun t => t.date = d)).head?).map
        (fun t => t.balance_cents.getD (last_reported_before s d)) := by
  rw [fill_days_with_carry_forward, fill_days_aux_eq s _ _ hs d]
  simp [last_reported_before]

lemma daily_balances_length (m : ℤ → Option ℤ) :
    ∀ (n : ℕ) (d : ℤ) (l : Option ℤ), (daily_balances m d n l).length = n := by
  intro n
  induction n with
  | zero => intro d l; rfl
  | succ k ih =>
    intro d l
    cases h : m d <;> simp [daily_balances, h, ih]

/-- The code's day loop agrees with the amended day valuation, given the
first-of-day map characterization; the invariant is that the loop's optional
`last_known` denotes the amended sequence's previous value. -/
lemma daily_balances_eq_amended (s : List InternalTransaction)
    (hs : SortedByDate s) :
    ∀ (n : ℕ) (d : ℤ) (last : Option ℤ) (prev : ℤ), last.getD 0 = prev →
    daily_balances (fill_days_with_carry_forward s) d n last =
      amended_day_values s d n prev := by
  intro n
  induction n with
  | zero => intro d last prev _; rfl
  | succ k ih =>
    intro d last prev hlp
    have hmd := fill_days_eq s hs d
    by_cases hemp : s.filter (fun t => t.date = d) = []
    · have : fill_days_with_carry_forward s d = none := by
        rw [hmd, hemp]; rfl
      simp only [daily_balances, this, amended_day_values, hemp, if_pos rfl]
      rw [hlp, ih (d + 1) last prev hlp]
      simp
    · obtain ⟨u, hu⟩ : ∃ u, (s.filter (fun t => t.date = d)).head? = some u := by
        cases hh : (s.filter (fun t => t.date = d)).head? with
        | none => exact absurd (List.head?_eq_none_iff.mp hh) hemp
        | some u => exact ⟨u, rfl⟩
      have hv : fill_days_with_carry_forward s d =
          some (u.balance_cents.getD (last_reported_before s d)) := by
        rw [hmd, hu]; rfl
      have hval : amended_present_value s d =
          u.balance_cents.getD (last_reported_before s d) := by
        rw [amended_present_value, hu]
      simp only [daily_balances, hv, amended_day_values, hemp, if_neg hemp,
        if_false, hval]
      rw [ih (d + 1) (some (u.balance_cents.getD (last_reported_before s d)))
        _ rfl]
      simp

lemma amended_day_values_length (s : List InternalTransaction) :
    ∀ (n : ℕ) (d : ℤ) (prev : ℤ), (amended_day_values s d n prev).length = n := by
  intro n
  induction n with
  | zero => intro d prev; rfl
  | succ k ih => intro d prev; simp [amended_day_values, ih]

lemma calculate_avg_eq_amended (ts : List InternalTransaction) :
    calculate_avg_daily_balance ts = amended_avg ts := by
  cases hs : normalize_and_sort_trxns ts with
  | nil => simp [calculate_avg_daily_balance, amended_avg, hs]
  | cons t0 rest =>
    have hsorted : SortedByDate (t0 :: rest) := hs ▸ normalize_sorted ts
    have hdb := daily_balances_eq_amended (t0 :: rest) hsorted
      (((((t0 :: rest).getLast?).getD t0).date - t0.date).toNat + 1)
      t0.date none 0 rfl
    have hlen := daily_balances_length (fill_days_with_carry_forward (t0 :: rest))
      (((((t0 :: rest).getLast?).getD t0).date - t0.date).toNat + 1) t0.date none
    simp only [calculate_avg_daily_balance, amended_avg, hs, hdb, hlen]
    have hmax : max 1 ((((((t0 :: rest).getLast?).getD t0).date - t0.date).toNat + 1)) =
        ((((((t0 :: rest).getLast?).getD t0).date - t0.date).toNat + 1)) := by
      omega
    rw [amended_day_values_length, hmax]

/-- A transaction on day 0 reporting no balance. -/
def c6_tx1 : InternalTransaction :=
  { transaction_id := "t1", date := 0, amount_cents := 100, type := "debit",
    balance_cents := none, nsf := false, description := "", category := "",
    merchant := "" }

/-- A later transaction on the same day 0 reporting balance 500. -/
def c6_tx2 : InternalTransaction :=
  { transaction_id := "t2", date := 0, amount_cents := 100, type := "debit",
    balance_cents := some 500, nsf := false, description := "", category := "",
    merchant := "" }

/-! ### Plan and installment construction (domain/entities) -/

/-- `Installment` entity (domain/entities/installment.py); `status` holds the
`InstallmentStatus` value string. -/
structure Installment where
  id : String
  plan_id : String
  due_date : ℤ
  amount_cents : ℤ
  status : String
  created_at : ℤ
deriving DecidableEq, Repr

/-- `Installment.create` (installment.py:20-29): fresh id and creation time
are passed explicitly. -/
def Installment.create (instId : String) (plan_id : String) (due_date : ℤ)
    (amount_cents : ℤ) (now : ℤ) : Installment :=
  { id := instId, plan_id := plan_id, due_date := due_date,
    amount_cents := amount_cents, status := "pending", created_at := now }

/-- `Plan` entity (domain/entities/plan.py). The `installments` field is the
list set by `Plan.create` before returning (`None` until then in the source,
which never exposes that state). -/
structure Plan where
  id : String
  decision_id : String
  user_id : String
  total_cents : ℤ
  created_at : ℤ
  installments : List Installment
  installments_count : ℕ
  days_between_installments : ℤ
deriving DecidableEq, Repr

/-- `Plan.create` (plan.py:19-42). Python's floor division and modulo are
`Int.fdiv` / `Int.fmod`; the fresh plan id, per-installment ids and
`datetime.now()` are passed explicitly. The source's default arguments are
`installments_count = 4`, `days_between_installments = 14`; callers of this
embedding pass them explicitly. -/
def Plan.create (planId : String) (instIds : ℕ → String) (decision_id : String)
    (user_id : String) (total_cents : ℤ) (installments_count : ℕ)
    (days_between_installments : ℤ) (now : ℤ) : Plan :=
  let base_amount := Int.fdiv total_cents installments_count
  let remainder := Int.fmod total_cents installments_count
  let installments := (List.range installments_count).map (fun j =>
    let i : ℕ := j + 1
    Installment.create (instIds j) planId (now + i * days_between_installments)
      (if i = installments_count then base_amount + remainder else base_amount)
      now)
  { id := planId, decision_id := decision_id, user_id := user_id,
    total_cents := total_cents, created_at := now,
    installments := installments,
    installments_count := installments_count,
    days_between_installments := days_between_installments }

/-! ### Tier policy (domain/services/risk_calculation.py) -/

/-- `BNPLTierConfig` (domain/config.py:22-36): tier limits in cents and
minimum scores, loaded from the environment with these defaults. -/
structure BNPLTierConfig where
  tier_a_limit : ℤ
  tier_b_limit : ℤ
  tier_c_limit : ℤ
  tier_d_limit : ℤ
  tier_a_min_score : ℚ
  tier_b_min_score : ℚ
  tier_c_min_score : ℚ
deriving DecidableEq, Repr

/-- The default `BNPLTierConfig` values from config.py. -/
def defaultBNPLTierConfig : BNPLTierConfig :=
  { tier_a_limit := 20000, tier_b_limit := 12000, tier_c_limit := 6000,
    tier_d_limit := 2000, tier_a_min_score := 75, tier_b_min_score := 55,
    tier_c_min_score := 35 }

/-- `RiskCalculationService._determine_bnpl_tier`
(risk_calculation.py:97-152), returning `(tier_name, limit_cents)`.
The third returned component, a human-readable reason string interpolating
`final_score` and (for Tier D) `nsf_count`, is not modelled; `nsf_count`
feeds only that string. -/
def determine_bnpl_tier (cfg : BNPLTierConfig) (final_score : ℚ)
    (utilization_label payback_label : String) (_nsf_count : ℕ)
    (is_in_cooldown : Bool) : String × ℤ :=
  if is_in_cooldown then ("Deny", 0)
  else if final_score ≥ cfg.tier_a_min_score ∧
      (utilization_label = "healthy" ∨ utilization_label = "medium-risk") ∧
      (payback_label = "positive" ∨ payback_label = "neutral") then
    ("Tier A", cfg.tier_a_limit)
  else if final_score ≥ cfg.tier_b_min_score ∧
      (payback_label = "positive" ∨ payback_label = "neutral") then
    ("Tier B", cfg.tier_b_limit)
  else if final_score ≥ cfg.tier_c_min_score then
    ("Tier C", cfg.tier_c_limit)
  else
    ("Tier D", cfg.tier_d_limit)

/-! ### Component scores feeding the final risk score
(domain/services/basics_features.py) -/

/-- `BasicsFeatures.clamp` (basics_features.py:14-16). -/
def clampQ (x lo hi : ℚ) : ℚ := max lo (min hi x)

/-- `BasicsFeatures.calculate_nsf_score` (basics_features.py:109-111). -/
def calculate_nsf_score (nsf_count : ℕ) (nsf_penalty : ℚ) : ℚ :=
  clampQ (100 - nsf_count * nsf_penalty) 0 100

/-- `BasicsFeatures.calculate_final_score` (basics_features.py:113-125):
weighted base score minus the utilization penalty, clamped to [0, 100]. -/
def calculate_final_score (balance_score income_spend_score nsf_score
    balance_weight income_spend_weight nsf_weight utilization_penalty : ℚ) : ℚ :=
  clampQ (balance_score * balance_weight + income_spend_score * income_spend_weight +
    nsf_score * nsf_weight - utilization_penalty) 0 100

/-- The final-score pipeline of `RiskCalculationService.calculate_risk`
(risk_calculation.py:182, 226-237) as a function of the balance and
income/spend component scores, the NSF count and the two penalties, at the
default weights (0.5 / 0.3 / 0.2) and default NSF penalty 25. -/
def risk_final_score (balance_score income_spend_score : ℚ) (nsf_count : ℕ)
    (utilization_penalty payback_penalty : ℚ) : ℚ :=
  let nsf_score := calculate_nsf_score nsf_count 25
  let base_score := calculate_final_score balance_score income_spend_score
    nsf_score (1/2) (3/10) (1/5) utilization_penalty
  max 0 (min 100 (base_score - payback_penalty))

/-! ### Decision orchestration
(application/service/validate_decision.py, app/routers/v1.py) -/

/-- `Decision` entity (domain/entities/decision.py). -/
structure DecisionRec where
  id : String
  user_id : String
  amount_requested_cents : ℤ
  approved : Bool
  credit_limit_cents : ℤ
  amount_granted_cents : ℤ
  score : ℚ
  created_at : ℤ
  plan : Option Plan
deriving DecidableEq, Repr

/-- `Decision.create` (decision.py:19-28): fresh id and creation time passed
explicitly; approved/limits/score start at their defaults. -/
def DecisionRec.create (decId : String) (user_id : String)
    (amount_requested_cents : ℤ) (now : ℤ) : DecisionRec :=
  { id := decId, user_id := user_id,
    amount_requested_cents := amount_requested_cents, approved := false,
    credit_limit_cents := 0, amount_granted_cents := 0, score := 0,
    created_at := now, plan := none }

/-- The part of the `calculate_risk` result dictionary that
`ValidateDecisionService.execute` consumes: either the error dictionary
returned for an empty transaction list, or `final_score` / `limit_bucket` /
`limit_amount` from a successful calculation. -/
inductive RiskResult where
  | error
  | ok (final_score : ℚ) (limit_bucket : String) (limit_amount : ℤ)
deriving DecidableEq, Repr

/-- The empty-list guard of `RiskCalculationService.calculate_risk`
(risk_calculation.py:169-170): an empty transaction list immediately yields
the error dictionary. The non-empty continuation (the scoring pipeline of
lines 172-294) is kept as an explicit parameter; the claims settled here
touch only the guard. -/
def calculate_risk_result (nonEmptyResult : List InternalTransaction → RiskResult)
    (transactions : List InternalTransaction) : RiskResult :=
  if transactions = [] then .error else nonEmptyResult transactions

/-- A decision as persisted by `DecisionRepoSqlalchemy.save_decision`: the
domain record plus the `request_id` stored inside the `risk_factors` blob. -/
structure StoredDecision where
  dec : DecisionRec
  request_id : Option String
deriving DecidableEq, Repr

/-- The webhook payload of `WebhookService.send_webhook`
(webhook_service.py:80-87). -/
structure WebhookPayload where
  plan_id : String
  decision_id : String
  user_id : String
  amount_granted_cents : ℤ
  request_id : Option String
deriving DecidableEq, Repr

/-- The persistent and observable state the decision flow touches: decision
rows, plan rows, the two decision counters (by label), and the webhooks
handed to the dispatcher. -/
structure Store where
  decisions : List StoredDecision
  plans : List Plan
  decision_total : String → ℕ
  credit_limit_bucket_total : String → ℕ
  webhooks_sent : List WebhookPayload

/-- Increment a labelled counter. -/
def bump (f : String → ℕ) (label : String) : String → ℕ :=
  fun s => if s = label then f s + 1 else f s

/-- `DecisionRepoSqlalchemy.get_decision_by_request_id`
(decision_repo_sqlalchemy.py:22-46): `None` for a falsy request id, else the
first stored decision whose `risk_factors._request_id` matches. (The source
additionally attaches the plan to the returned entity; the plan rows are
looked up separately where needed, as the router does.) -/
def get_decision_by_request_id (st : Store) (request_id : String) :
    Option DecisionRec :=
  if request_id = "" then none
  else ((st.decisions.filter (fun sd => sd.request_id = some request_id)).head?).map
    (fun sd => sd.dec)

/-- Plan lookup by decision id, as in the router's
`select(PlanModel).where(PlanModel.decision_id == ...)` (v1.py:65-68). -/
def plan_for_decision (st : Store) (decision_id : String) : Option Plan :=
  (st.plans.filter (fun p => p.decision_id = decision_id)).head?

/-- `DecisionRepoSqlalchemy.save_decision` (decision_repo_sqlalchemy.py:48-70):
re-check the request id and only insert when no decision with it exists. The
returned entity is ignored by the caller, so only the store is produced. -/
def save_decision (st : Store) (dec : DecisionRec) (request_id : Option String) :
    Store :=
  match request_id with
  | some rid =>
    if (get_decision_by_request_id st rid).isSome then st
    else { st with decisions := st.decisions ++ [⟨dec, some rid⟩] }
  | none => { st with decisions := st.decisions ++ [⟨dec, none⟩] }

/-- Fresh identifiers and the clock, passed to one `execute` run in place of
`uuid4()` / `datetime.now()`. -/
structure FreshIds where
  decisionId : String
  planId : String
  instIds : ℕ → String
  now : ℤ

/-- `ValidateDecisionService.execute` (validate_decision.py:35-208) with all
ports configured, as in the `/v1/decision` router. The risk dictionary is the
`RiskResult` computed from the fetched transactions; the webhook dispatcher's
success/failure (which `execute` only logs) is irrelevant to the resulting
state beyond the payload having been handed over, so the payload list records
the dispatch. Returns the decision entity and the updated store. -/
def executeService (st : Store) (risk : RiskResult) (user_id : String)
    (amount_requested_cents : ℤ) (request_id : Option String)
    (ids : FreshIds) : DecisionRec × Store :=
  match risk with
  | .error =>
    -- validate_decision.py:84-93: approved=False, score=0.0, bucket="0";
    -- then metrics outcome "error" / bucket "0" (lines 143-154), decision
    -- persisted (157-160); no plan, no webhook (both gated on approval).
    let decision := { DecisionRec.create ids.decisionId user_id
      amount_requested_cents ids.now with score := (0:ℚ) }
    let st := { st with
      decision_total := bump st.decision_total "error",
      credit_limit_bucket_total := bump st.credit_limit_bucket_total "0" }
    let st := save_decision st decision request_id
    (decision, st)
  | .ok final_score limit_bucket limit_amount =>
    -- validate_decision.py:95: approved iff the requested amount is
    -- positive and does not exceed the limit.
    let approved : Bool :=
      amount_requested_cents > 0 ∧ amount_requested_cents ≤ limit_amount
    if approved then
      -- lines 115-132: grant min(requested, limit), build the plan, set
      -- approval, amounts and limit on the decision; lines 143-154 emit
      -- the approved outcome and the bucket; lines 157-184 persist the
      -- decision then the plan and dispatch the webhook.
      let amount_granted_cents := min amount_requested_cents limit_amount
      let plan := Plan.create ids.planId ids.instIds ids.decisionId user_id
        amount_granted_cents 4 14 ids.now
      let decision := { DecisionRec.create ids.decisionId user_id
        amount_requested_cents ids.now with
        score := final_score, plan := some (plan), approved := true,
        amount_granted_cents := amount_granted_cents,
        credit_limit_cents := limit_amount }
      let st := { st with
        decision_total := bump st.decision_total "approved",
        credit_limit_bucket_total :=
          bump st.credit_limit_bucket_total limit_bucket }
      let st := save_decision st decision request_id
      let st := { st with plans := st.plans ++ [plan] }
      let st := { st with webhooks_sent := st.webhooks_sent ++
        [⟨plan.id, decision.id, user_id, amount_granted_cents, request_id⟩] }
      (decision, st)
    else
      -- declined: decision keeps its defaults (approved False, amounts 0),
      -- metrics outcome "declined", decision persisted, no plan/webhook.
      let decision := { DecisionRec.create ids.decisionId user_id
        amount_requested_cents ids.now with score := final_score }
      let st := { st with
        decision_total := bump st.decision_total "declined",
        credit_limit_bucket_total :=
          bump st.credit_limit_bucket_total limit_bucket }
      let st := save_decision st decision request_id
      (decision, st)

/-- The `/v1/decision` response body (app/schemas, v1.py:105-110). -/
structure DecisionResponse where
  approved : Bool
  credit_limit_cents : ℤ
  amount_granted_cents : ℤ
  plan_id : String
deriving DecidableEq, Repr

/-- The `POST /v1/decision` handler (v1.py:25-116): resolve the request id
from the header (or the generated UUID), return the stored decision's
response on an idempotency hit without running the service, else run
`ValidateDecisionService.execute`. The risk result stands for the risk
calculation over the transactions fetched for this user. -/
def decisionEndpoint (st : Store) (user_id : String)
    (amount_requested_cents : ℤ) (x_request_id : Option String)
    (generated_id : String) (risk : RiskResult) (ids : FreshIds) :
    DecisionResponse × Store :=
  let request_id := x_request_id.getD generated_id
  match get_decision_by_request_id st request_id with
  | some existing =>
    let plan_id : Option String := if existing.approved then
        (plan_for_decision st existing.id).map (fun p => p.id)
      else none
    (⟨existing.approved, existing.credit_limit_cents,
      existing.amount_granted_cents, plan_id.getD ""⟩, st)
  | none =>
    let (decision, st) := executeService st risk user_id
      amount_requested_cents (some request_id) ids
    (⟨decision.approved, decision.credit_limit_cents,
      decision.amount_granted_cents,
      (decision.plan.map (fun p => p.id)).getD ""⟩, st)

/-! ### Webhook dispatcher (infrastructure/clients/webhook_client.py) -/

/-- The persisted `outbound_webhook` row fields the dispatcher updates
(`_record_attempt`, webhook_client.py:73-109): status and attempt counter. -/
structure WebhookRow where
  status : String
  attempts : ℕ
deriving DecidableEq, Repr

/-- The observable outcome of one POST attempt: an HTTP status code, or
`none` for a timeout/transport error (recorded with status code 0 and
always retried, like a non-2xx response). -/
def is2xx : Option ℕ → Bool
  | some code => 200 ≤ code ∧ code < 300
  | none => false

/-- The retry loop of `_send_with_retry_wrapper` + `_send_with_retry`
(webhook_client.py:111-205, 306-338): `k` is the 1-based attempt counter
(`_current_attempt_count`), `fuel` the remaining attempts out of
`stop_after_attempt(6)`. Each attempt records `attempts := k` and
`status ∈ {success, failed}` on the row; a 2xx stops with success; when the
attempts are exhausted, `reraise=True` propagates the last exception and
`send_webhook` returns `(False, _current_attempt_count)`. -/
def send_attempts (responses : ℕ → Option ℕ) : ℕ → ℕ → WebhookRow →
    Bool × ℕ × WebhookRow
  | _, 0, row => (false, 0, row)
  | k, fuel + 1, _ =>
    let ok := is2xx (responses k)
    let row := WebhookRow.mk (if ok then "success" else "failed") k
    if ok then (true, k, row)
    else if fuel = 0 then (false, k, row)
    else send_attempts responses (k + 1) fuel row

/-- `WebhookClient.send_webhook` (webhook_client.py:207-289) against a given
sequence of per-attempt responses, starting from the `pending` row created by
`WebhookService` (webhook_attempts.py:25-45): returns `(ok, attempts)` and
the final persisted row. -/
def send_webhook (responses : ℕ → Option ℕ) : Bool × ℕ × WebhookRow :=
  send_attempts responses 1 6 ⟨"pending", 0⟩

/-! ### Configuration construction (utilizations.py, config.py) -/

/-- `UtilizationConfig` (utilizations.py:22-96): each parameter tuple is
`(mu, sigma, weight)`; label thresholds pair a score bound with a label. -/
structure UtilizationConfigRec where
  utilization_params : ℚ × ℚ × ℚ
  burn_days_params : ℚ × ℚ × ℚ
  daily_spend_params : ℚ × ℚ × ℚ
  label_thresholds : List (ℤ × String)
deriving DecidableEq, Repr

/-- `UtilizationConfig.__init__` with explicit parameters
(utilizations.py:36-96): fields are assigned, then the three weights are
checked to sum to 1.0 within ±0.01, raising `ValueError` otherwise. -/
def UtilizationConfigRec.construct (utilization_params burn_days_params
    daily_spend_params : ℚ × ℚ × ℚ) (label_thresholds : List (ℤ × String)) :
    Except String UtilizationConfigRec :=
  let total_weight := utilization_params.2.2 + burn_days_params.2.2 +
    daily_spend_params.2.2
  if |total_weight - 1| > 1/100 then
    .error "Weights must sum to 1.0"
  else
    .ok ⟨utilization_params, burn_days_params, daily_spend_params,
      label_thresholds⟩

/-- `RiskWeightsConfig` (config.py:39-55): a plain dataclass; its generated
constructor assigns the fields and performs no validation whatsoever. -/
structure RiskWeightsConfig where
  balance_weight : ℚ
  income_spend_weight : ℚ
  nsf_weight : ℚ
  balance_neg_cap : ℤ
  nsf_penalty : ℚ
  payback_penalty : ℚ
  util_penalty_high_risk : ℚ
  util_penalty_medium_risk : ℚ
deriving DecidableEq, Repr

/-- The `RiskWeightsConfig` dataclass constructor: pure field assignment,
no weight check (config.py defines no `__post_init__`). -/
def RiskWeightsConfig.construct (balance_weight income_spend_weight
    nsf_weight : ℚ) (balance_neg_cap : ℤ) (nsf_penalty payback_penalty
    util_penalty_high_risk util_penalty_medium_risk : ℚ) : RiskWeightsConfig :=
  ⟨balance_weight, income_spend_weight, nsf_weight, balance_neg_cap,
    nsf_penalty, payback_penalty, util_penalty_high_risk,
    util_penalty_medium_risk⟩

/-! ### Gaussian component scores (utilizations.py:121-164) -/

/-- Python's `round(x, 3)` over the reals: scale by 1000, round to an
integer, scale back (half-up here versus Python's half-even; no value in
this development lies on a tie). -/
noncomputable def rround3 (x : ℝ) : ℝ := (round (x * 1000) : ℤ) / 1000

/-- `UtilizationService._gaussian_score` (utilizations.py:121-126):
`exp(−(x−μ)² / (2σ²))`, and 0.0 when the input is `None`. -/
noncomputable def gaussian_score (value : Option ℝ) (mu sigma : ℝ) : ℝ :=
  match value with
  | none => 0
  | some x => Real.exp (-((x - mu) ^ 2) / (2 * sigma ^ 2))

/-- `UtilizationService._asymmetric_gaussian_score` (utilizations.py:128-134):
pick `sigma_left` at or below the mean, `sigma_right` above it; 0.0 when the
input is `None`. -/
noncomputable def asymmetric_gaussian_score (value : Option ℝ)
    (mu sigma_left sigma_right : ℝ) : ℝ :=
  match value with
  | none => 0
  | some x =>
    let sigma := if x ≤ mu then sigma_left else sigma_right
    Real.exp (-((x - mu) ^ 2) / (2 * sigma ^ 2))

/-- The three scores produced by
`UtilizationService._calculate_component_scores` (utilizations.py:136-164). -/
structure ComponentScores where
  utilization_score : ℝ
  burn_days_score : ℝ
  daily_spend_score : ℝ

/-- `UtilizationService._calculate_component_scores` (utilizations.py:136-164)
at parameter tuples `(mu, sigma, weight)`: the utilization Gaussian uses
hard-coded `sigma_left=0.5, sigma_right=0.25`, the burn-days Gaussian
hard-coded `sigma_left=10.0, sigma_right=30.0`, and — crucially — a falsy
`burn_days` (None or 0) is replaced by `0` before scoring
(`burn_days if burn_days else 0`), while a `None` utilization is passed
through. Each score is rounded to three decimals. -/
noncomputable def calculate_component_scores
    (utilization_params burn_days_params daily_spend_params : ℝ × ℝ × ℝ)
    (utilization burn_days : Option ℝ) (daily_spend_ratio : Option ℝ) :
    ComponentScores :=
  let util_score := asymmetric_gaussian_score utilization
    utilization_params.1 0.5 0.25
  let burn_score := asymmetric_gaussian_score (some (burn_days.getD 0))
    burn_days_params.1 10.0 30.0
  let spend_score := gaussian_score daily_spend_ratio
    daily_spend_params.1 daily_spend_params.2.1
  ⟨rround3 util_score, rround3 burn_score, rround3 spend_score⟩

/-- The default parameter tuples of `UtilizationConfig` (utilizations.py:25-27)
over the reals. -/
def default_utilization_params : ℝ × ℝ × ℝ := (0.6, 0.3, 0.45)

/-- Default burn-days `(mu, sigma, weight)` (utilizations.py:26). -/
def default_burn_days_params : ℝ × ℝ × ℝ := (30.0, 15.0, 0.35)

/-- Default daily-spend `(mu, sigma, weight)` (utilizations.py:27). -/
def default_daily_spend_params : ℝ × ℝ × ℝ := (0.033, 0.02, 0.20)

/-! ### Bank-API transaction mapper
(infrastructure/clients/transaction_repo_api.py) -/

/-- A raw transaction dictionary from the bank API, restricted to the keys
`_map_to_domain_entity` reads. A missing key is `none`; the date is the
already-parsed calendar timestamp when any of the date keys is present (the
string/number parsing itself is outside the mapped claims). -/
structure RawTransaction where
  id : Option String
  transaction_id : Option String
  date : Option ℤ
  amount_cents : Option ℤ
  amount : Option ℤ
  type : Option String
  transaction_type : Option String
  description : Option String
  memo : Option String
  category : Option String
  merchant : Option String
  merchant_name : Option String
  balance_cents : Option ℤ
  balance : Option ℤ
  nsf : Option Bool
  is_nsf : Option Bool
deriving DecidableEq, Repr

/-- Python's `str.lower` as a character-wise lowercase map (ASCII; the
source only ever lowercases transaction-type strings). -/
def str_lower (s : String) : String := ⟨s.data.map Char.toLower⟩

/-- Python truthiness of an optional integer: `None` and `0` are falsy. -/
def truthyInt : Option ℤ → Option ℤ
  | some v => if v = 0 then none else some v
  | none => none

/-- Python truthiness of an optional string: `None` and `""` are falsy. -/
def truthyStr : Option String → Option String
  | some s => if s = "" then none else some s
  | none => none

/-- Python truthiness of an optional bool: `None` and `False` are falsy. -/
def truthyBool : Option Bool → Option Bool
  | some b => if b then some b else none
  | none => none

/-- `a or b or default` over integers. -/
def pyOrInt (a b : Option ℤ) (dflt : ℤ) : ℤ :=
  ((truthyInt a).orElse (fun _ => truthyInt b)).getD dflt

/-- `a or b or default` over strings. -/
def pyOrStr (a b : Option String) (dflt : String) : String :=
  ((truthyStr a).orElse (fun _ => truthyStr b)).getD dflt

/-- `bool(a or b or False)` over bools. -/
def pyOrBool (a b : Option Bool) : Bool :=
  (((truthyBool a).orElse (fun _ => truthyBool b)).getD false)

/-- The domain `Transaction` entity (domain/entities/transaction.py): every
field, including `balance_cents`, is non-optional. -/
structure Transaction where
  transaction_id : String
  date : ℤ
  amount_cents : ℤ
  type : String
  description : String
  category : String
  merchant : String
  balance_cents : ℤ
  nsf : Bool
deriving DecidableEq, Repr

/-- `TransactionRepoAPI._map_to_domain_entity`
(transaction_repo_api.py:56-98): every field falls back through the
alternative keys with Python `or`, so a null/missing/zero balance becomes 0,
a missing amount becomes 0, and a missing type becomes "debit"; the type is
lowercased. `datetime.now()` (used when no date key is present) is the
explicit `now` argument. -/
def map_to_domain_entity (raw : RawTransaction) (now : ℤ) : Transaction :=
  { transaction_id := pyOrStr raw.id raw.transaction_id "",
    date := raw.date.getD now,
    amount_cents := pyOrInt raw.amount_cents raw.amount 0,
    type := str_lower (pyOrStr raw.type raw.transaction_type "debit"),
    description := pyOrStr raw.description raw.memo "",
    category := (truthyStr raw.category).getD "",
    merchant := pyOrStr raw.merchant raw.merchant_name "",
    balance_cents := pyOrInt raw.balance_cents raw.balance 0,
    nsf := pyOrBool raw.nsf raw.is_nsf }

/-- How the domain services read a mapped `Transaction` (duck typing): its
attributes coincide with an `InternalTransaction` whose `balance_cents` is
always present. -/
def Transaction.toInternal (t : Transaction) : InternalTransaction :=
  { transaction_id := t.transaction_id, date := t.date,
    amount_cents := t.amount_cents, type := t.type,
    balance_cents := some t.balance_cents, nsf := t.nsf,
    description := t.description, category := t.category,
    merchant := t.merchant }

/-! ## Claims -/

/-- C4: for every `total_cents ≥ 0`, `Plan.create` with the default
parameters (4 installments, 14 days apart) produces exactly 4 installments,
all initially `pending`, with `due_date = created_at + i·14` for the i-th
installment (1-based), the first three amounts `total div 4`, the last
`total div 4 + total mod 4`, and the amounts summing to the plan's
`total_cents`. -/
theorem claim_c4 (planId : String) (instIds : ℕ → String)
    (decision_id user_id : String) (total now : ℤ) (_h : 0 ≤ total) :
    (Plan.create planId instIds decision_id user_id total 4 14 now).installments.length = 4 ∧
    (∀ inst ∈ (Plan.create planId instIds decision_id user_id total 4 14 now).installments,
      inst.status = "pending") ∧
    (Plan.create planId instIds decision_id user_id total 4 14 now).installments.map
      (fun i => i.due_date) =
      [now + 1 * 14, now + 2 * 14, now + 3 * 14, now + 4 * 14] ∧
    (Plan.create planId instIds decision_id user_id total 4 14 now).installments.map
      (fun i => i.amount_cents) =
      [total / 4, total / 4, total / 4, total / 4 + total % 4] ∧
    ((Plan.create planId instIds decision_id user_id total 4 14 now).installments.map
      (fun i => i.amount_cents)).sum = total ∧
    (Plan.create planId instIds decision_id user_id total 4 14 now).total_cents = total ∧
    (Plan.create planId instIds decision_id user_id total 4 14 now).created_at = now := by
  have h4 : (0:ℤ) ≤ 4 := by norm_num
  have hdiv : Int.fdiv total 4 = total / 4 := Int.fdiv_eq_ediv total h4
  have hmod : Int.fmod total 4 = total % 4 := Int.fmod_eq_emod total h4
  refine ⟨?_, ?_, ?_, ?_, ?_, rfl, rfl⟩
  · simp [Plan.create, Installment.create]
  · intro inst hinst
    simp [Plan.create, Installment.create, List.range_succ] at hinst
    rcases hinst with h1 | h1 | h1 | h1 <;> rw [h1]
  · simp [Plan.create, Installment.create, List.range_succ]
  · simp [Plan.create, Installment.create, List.range_succ, hdiv, hmod]
  · simp [Plan.create, Installment.create, List.range_succ, hdiv, hmod]
    omega

/-- C4 witness: the theorem applied at `total_cents = 10`. -/
theorem claim_c4_witness :
    (0:ℤ) ≤ 10 ∧
    ((Plan.create "p" (fun _ => "i") "d" "u" 10 4 14 0).installments.map
      (fun i => i.amount_cents)).sum = 10 ∧
    ((Plan.create "p" (fun _ => "i") "d" "u" 10 4 14 0).installments.map
      (fun i => i.amount_cents)) = [2, 2, 2, 4] := by
  refine ⟨by norm_num, (claim_c4 "p" (fun _ => "i") "d" "u" 10 0 (by norm_num)).2.2.2.2.1, ?_⟩
  rw [(claim_c4 "p" (fun _ => "i") "d" "u" 10 0 (by norm_num)).2.2.2.1]
  decide

/-- C6 counterexample: two transactions on the same single day, the first
reporting no balance and the second reporting 500. The claim's rule (first
*reported* balance on the day) averages 500, but the code records the day at
its first transaction, which reports none, so the initial carry 0 is used and
the code averages 0. -/
theorem claim_c6_counterexample :
    calculate_avg_daily_balance [c6_tx1, c6_tx2] = some 0 ∧
    claimed_avg [c6_tx1, c6_tx2] = some 500 ∧
    calculate_avg_daily_balance [c6_tx1, c6_tx2] ≠
      claimed_avg [c6_tx1, c6_tx2] := by
  refine ⟨?_, ?_, ?_⟩
  · simp [calculate_avg_daily_balance, normalize_and_sort_trxns,
      List.mergeSort, c6_tx1, c6_tx2, fill_days_with_carry_forward,
      fill_days_aux, daily_balances]
  · simp [claimed_avg, normalize_and_sort_trxns, List.mergeSort, c6_tx1,
      c6_tx2, claimed_day_balance, first_reported_balance_on,
      last_reported_before, running_balance, List.range_succ]
  · simp [calculate_avg_daily_balance, claimed_avg, normalize_and_sort_trxns,
      List.mergeSort, c6_tx1, c6_tx2, fill_days_with_carry_forward,
      fill_days_aux, daily_balances, claimed_day_balance,
      first_reported_balance_on, last_reported_before, running_balance,
      List.range_succ]

/-- C6 as amended: for every non-empty transaction list the code's average
daily balance exists and equals the mean, over every calendar day in the
inclusive range of the (stably) date-sorted transactions, of the day values
in which a day with transactions takes the balance reported by its *first*
transaction — or, if that transaction reports none, the last balance
reported by any earlier transaction (0 if none) — and a day with no
transactions repeats the previous day's value. -/
theorem claim_c6_amended (ts : List InternalTransaction) (h : ts ≠ []) :
    (calculate_avg_daily_balance ts).isSome ∧
    calculate_avg_daily_balance ts = amended_avg ts := by
  refine ⟨?_, calculate_avg_eq_amended ts⟩
  cases hs : normalize_and_sort_trxns ts with
  | nil =>
    exfalso
    apply h
    have hperm := List.mergeSort_perm ts
      (fun a b : InternalTransaction => a.date ≤ b.date)
    rw [normalize_and_sort_trxns] at hs
    rw [hs] at hperm
    exact hperm.nil_eq.symm
  | cons t0 rest => simp [calculate_avg_daily_balance, hs]

/-- C6 witness: the amended theorem applied to the concrete two-transaction
list of the counterexample's shape. -/
theorem claim_c6_amended_witness :
    [c6_tx2] ≠ [] ∧ calculate_avg_daily_balance [c6_tx2] = amended_avg [c6_tx2] ∧
    calculate_avg_daily_balance [c6_tx2] = some 500 := by
  refine ⟨by simp, (claim_c6_amended [c6_tx2] (by simp)).2, ?_⟩
  simp [calculate_avg_daily_balance, normalize_and_sort_trxns,
    List.mergeSort, c6_tx2, fill_days_with_carry_forward, fill_days_aux,
    daily_balances]

/-- A store with no rows and zeroed counters. -/
def emptyStore : Store := ⟨[], [], fun _ => 0, fun _ => 0, []⟩

/-- Concrete fresh ids and clock for evaluating the service. -/
def sampleIds : FreshIds := ⟨"dec-1", "plan-1", fun _ => "inst", 0⟩

/-- C1 counterexample: with the default configuration the Tier-A limit is
20000, but `ValidateDecisionService.execute` computes
`approved = amount_requested_cents > 0 and amount_requested_cents <= limit`
(validate_decision.py:95), so a Tier-A user requesting 40000 cents is
declined with `amount_granted_cents = 0` and `credit_limit_cents = 0` —
not approved with a granted 20000 as the claim states. -/
theorem claim_c1_counterexample :
    determine_bnpl_tier defaultBNPLTierConfig 80 "healthy" "positive" 0 false =
      ("Tier A", 20000) ∧
    (executeService emptyStore (.ok 80 "Tier A" 20000) "U1" 40000
      (some "R") sampleIds).1.approved = false ∧
    (executeService emptyStore (.ok 80 "Tier A" 20000) "U1" 40000
      (some "R") sampleIds).1.amount_granted_cents = 0 ∧
    (executeService emptyStore (.ok 80 "Tier A" 20000) "U1" 40000
      (some "R") sampleIds).1.credit_limit_cents = 0 := by
  refine ⟨?_, ?_, ?_, ?_⟩
  · norm_num [determine_bnpl_tier, defaultBNPLTierConfig]
  · simp [executeService, DecisionRec.create]
  · simp [executeService, DecisionRec.create]
  · simp [executeService, DecisionRec.create]

/-- C1 as amended: when the risk engine returns a limit, the service
approves iff `0 < amount_requested ≤ limit_amount`, and on approval grants
`min(amount_requested, limit) = amount_requested` and records the limit as
the credit limit. (Requests above the tier limit are declined, not capped.) -/
theorem claim_c1_amended (st : Store) (user : String) (req : ℤ) (fs : ℚ)
    (bucket : String) (limit : ℤ) (rid : Option String) (ids : FreshIds) :
    ((executeService st (.ok fs bucket limit) user req rid ids).1.approved = true ↔
      0 < req ∧ req ≤ limit) ∧
    ((executeService st (.ok fs bucket limit) user req rid ids).1.approved = true →
      (executeService st (.ok fs bucket limit) user req rid ids).1.amount_granted_cents =
        min req limit ∧
      min req limit = req ∧
      (executeService st (.ok fs bucket limit) user req rid ids).1.credit_limit_cents =
        limit) := by
  by_cases hb : req > 0 ∧ req ≤ limit
  · constructor
    · simp [executeService, DecisionRec.create, hb]
    · intro _
      refine ⟨?_, min_eq_left hb.2, ?_⟩ <;>
        simp [executeService, DecisionRec.create, hb]
  · constructor
    · simp [executeService, DecisionRec.create, hb]
    · intro happ
      exfalso
      rw [show (executeService st (.ok fs bucket limit) user req rid ids).1.approved
        = false by simp [executeService, DecisionRec.create, hb]] at happ
      simp at happ

/-- C1 amended witness: a request of 10000 against limit 20000 is approved
and granted exactly 10000. -/
theorem claim_c1_amended_witness :
    (executeService emptyStore (.ok 80 "Tier A" 20000) "U1" 10000
      (some "R") sampleIds).1.approved = true ∧
    (executeService emptyStore (.ok 80 "Tier A" 20000) "U1" 10000
      (some "R") sampleIds).1.amount_granted_cents = min 10000 20000 ∧
    min (10000:ℤ) 20000 = 10000 := by
  have h := claim_c1_amended emptyStore "U1" 10000 80 "Tier A" 20000
    (some "R") sampleIds
  have happ := h.1.mpr (by norm_num)
  obtain ⟨hg, hm, _⟩ := h.2 happ
  exact ⟨happ, hg, hm⟩

/-- C2: when a decision with the resolved request id already exists in the
store, the `/v1/decision` handler returns that decision's response (with its
plan id when approved) and leaves the store — decision rows, plan rows, both
counters, and dispatched webhooks — exactly as it was. -/
theorem claim_c2 (st : Store) (user : String) (req : ℤ)
    (x_request_id : Option String) (generated_id : String) (risk : RiskResult)
    (ids : FreshIds) (d : DecisionRec)
    (h : get_decision_by_request_id st (x_request_id.getD generated_id) = some d) :
    decisionEndpoint st user req x_request_id generated_id risk ids =
      (⟨d.approved, d.credit_limit_cents, d.amount_granted_cents,
        ((if d.approved then (plan_for_decision st d.id).map (fun p => p.id)
          else none).getD "")⟩, st) := by
  simp [decisionEndpoint, h]

/-- An approved decision row for the C2 witness. -/
def c2_decision : DecisionRec :=
  { id := "d1", user_id := "U", amount_requested_cents := 5000,
    approved := true, credit_limit_cents := 12000,
    amount_granted_cents := 5000, score := 60, created_at := 0, plan := none }

/-- The plan row referencing `c2_decision`. -/
def c2_plan : Plan := Plan.create "pl1" (fun _ => "i") "d1" "U" 5000 4 14 0

/-- A store already holding `c2_decision` under request id "R". -/
def c2_store : Store :=
  ⟨[⟨c2_decision, some "R"⟩], [c2_plan], fun _ => 0, fun _ => 0, []⟩

/-- C2 witness: a replay of request id "R" returns the stored decision with
its plan id and an unchanged store. -/
theorem claim_c2_witness :
    get_decision_by_request_id c2_store "R" = some c2_decision ∧
    decisionEndpoint c2_store "U" 7777 (some "R") "generated" .error sampleIds =
      (⟨true, 12000, 5000, "pl1"⟩, c2_store) := by
  have hl : get_decision_by_request_id c2_store "R" = some c2_decision := by
    simp [get_decision_by_request_id, c2_store]
  refine ⟨hl, ?_⟩
  rw [claim_c2 c2_store "U" 7777 (some "R") "generated" .error sampleIds
    c2_decision hl]
  simp [c2_decision, plan_for_decision, c2_store, c2_plan, Plan.create]

/-- C3 evaluated at the failing input: an empty transaction list yields the
error risk result, the decision is declined with limit 0 and no plan, the
`error` outcome counter is incremented exactly once (approved/declined are
untouched), no plan row is added and no webhook dispatched — but the bucket
counter is incremented under the label "0", not "$0" as the claim (and the
repository's own metrics test) expects; the "$0" label stays untouched. -/
theorem claim_c3_eval (rest : List InternalTransaction → RiskResult)
    (st : Store) (user : String) (req : ℤ) (rid : Option String)
    (ids : FreshIds) :
    calculate_risk_result rest [] = .error ∧
    (executeService st .error user req rid ids).1.approved = false ∧
    (executeService st .error user req rid ids).1.credit_limit_cents = 0 ∧
    (executeService st .error user req rid ids).1.amount_granted_cents = 0 ∧
    (executeService st .error user req rid ids).1.plan = none ∧
    (executeService st .error user req rid ids).2.decision_total "error" =
      st.decision_total "error" + 1 ∧
    (executeService st .error user req rid ids).2.decision_total "approved" =
      st.decision_total "approved" ∧
    (executeService st .error user req rid ids).2.decision_total "declined" =
      st.decision_total "declined" ∧
    (executeService st .error user req rid ids).2.credit_limit_bucket_total "0" =
      st.credit_limit_bucket_total "0" + 1 ∧
    (executeService st .error user req rid ids).2.credit_limit_bucket_total "$0" =
      st.credit_limit_bucket_total "$0" ∧
    (executeService st .error user req rid ids).2.plans = st.plans ∧
    (executeService st .error user req rid ids).2.webhooks_sent =
      st.webhooks_sent := by
  refine ⟨rfl, ?_⟩
  cases rid with
  | none =>
    refine ⟨rfl, rfl, rfl, rfl, ?_⟩ <;>
      simp [executeService, DecisionRec.create, save_decision, bump]
  | some r =>
    refine ⟨rfl, rfl, rfl, rfl, ?_⟩
    have hinv : get_decision_by_request_id { st with
        decision_total := bump st.decision_total "error",
        credit_limit_bucket_total := bump st.credit_limit_bucket_total "0" } r =
      get_decision_by_request_id st r := rfl
    by_cases hex : (get_decision_by_request_id st r).isSome <;>
      simp [executeService, DecisionRec.create, save_decision, bump, hinv, hex]

/-- Behaviour of the attempt loop for any positive fuel: it succeeds iff
some attempt in the window receives a 2xx, and when every attempt in the
window fails it consumes the whole window, ending on a failed row. -/
lemma send_attempts_spec (responses : ℕ → Option ℕ) :
    ∀ (fuel : ℕ), 1 ≤ fuel → ∀ (k : ℕ) (row : WebhookRow),
    ((send_attempts responses k fuel row).1 = true ↔
      ∃ j, k ≤ j ∧ j < k + fuel ∧ is2xx (responses j) = true) ∧
    ((∀ j, k ≤ j → j < k + fuel → is2xx (responses j) = false) →
      send_attempts responses k fuel row =
        (false, k + fuel - 1, ⟨"failed", k + fuel - 1⟩)) := by
  intro fuel
  induction fuel with
  | zero => omega
  | succ n ih =>
    intro _ k row
    by_cases hok : is2xx (responses k) = true
    · constructor
      · simp only [send_attempts, hok, if_true]
        exact ⟨fun _ => ⟨k, le_rfl, by omega, hok⟩, fun _ => trivial⟩
      · intro hall
        exact absurd hok (by simpa using hall k le_rfl (by omega))
    · rw [Bool.not_eq_true] at hok
      rcases Nat.eq_zero_or_pos n with hn | hn
      · subst hn
        constructor
        · simp only [send_attempts, hok]
          constructor
          · intro h
            simp at h
          · rintro ⟨j, hj1, hj2, hj3⟩
            have : j = k := by omega
            rw [this] at hj3
            rw [hok] at hj3
            exact absurd hj3 (by simp)
        · intro _
          simp [send_attempts, hok]
      · have hrec : send_attempts responses k (n + 1) row =
            send_attempts responses (k + 1) n
              ⟨if is2xx (responses k) then "success" else "failed", k⟩ := by
          simp only [send_attempts, hok]
          rw [if_neg (by simp [hok]), if_neg (by omega)]
        obtain ⟨ih1, ih2⟩ := ih hn (k + 1)
          ⟨if is2xx (responses k) then "success" else "failed", k⟩
        constructor
        · rw [hrec, ih1]
          constructor
          · rintro ⟨j, hj1, hj2, hj3⟩
            exact ⟨j, by omega, by omega, hj3⟩
          · rintro ⟨j, hj1, hj2, hj3⟩
            refine ⟨j, ?_, by omega, hj3⟩
            rcases Nat.eq_or_lt_of_le hj1 with h | h
            · rw [← h, hok] at hj3
              exact absurd hj3 (by simp)
            · omega
        · intro hall
          rw [hrec, ih2 (fun j h1 h2 => hall j (by omega) (by omega))]
          have h1 : k + 1 + n - 1 = k + (n + 1) - 1 := by omega
          rw [h1]

/-- C5: `WebhookClient.send_webhook` reports success iff one of its (at
most six) POST attempts received a 2xx response; when every one of the six
possible attempts fails, it stops after six attempts, returns
`(ok = false, attempts = 6)`, and the persisted `outbound_webhook` row ends
with `status = "failed"` and `attempts = 6`. -/
theorem claim_c5 (responses : ℕ → Option ℕ) :
    ((send_webhook responses).1 = true ↔
      ∃ j, 1 ≤ j ∧ j ≤ 6 ∧ is2xx (responses j) = true) ∧
    ((∀ j, 1 ≤ j → j ≤ 6 → is2xx (responses j) = false) →
      send_webhook responses = (false, 6, ⟨"failed", 6⟩)) := by
  obtain ⟨h1, h2⟩ := send_attempts_spec responses 6 (by omega) 1 ⟨"pending", 0⟩
  constructor
  · rw [send_webhook, h1]
    constructor
    · rintro ⟨j, hj1, hj2, hj3⟩
      exact ⟨j, hj1, by omega, hj3⟩
    · rintro ⟨j, hj1, hj2, hj3⟩
      exact ⟨j, hj1, by omega, hj3⟩
  · intro hall
    rw [send_webhook, h2 (fun j ha hb => hall j ha (by omega))]

/-- C5 witness: the claim applied to a ledger answering 500 on every
attempt. -/
theorem claim_c5_witness :
    (∀ j, 1 ≤ j → j ≤ 6 → is2xx ((fun _ => some 500) j) = false) ∧
    send_webhook (fun _ => some 500) = (false, 6, ⟨"failed", 6⟩) := by
  have hall : ∀ j : ℕ, 1 ≤ j → j ≤ 6 →
      is2xx ((fun _ => some 500) j) = false := by
    intro j _ _
    rfl
  exact ⟨hall, (claim_c5 (fun _ => some 500)).2 hall⟩

lemma exp_nine_halves_lt_2000 : Real.exp ((9:ℝ)/2) < 2000 := by
  have h1 : Real.exp ((9:ℝ)/2) ≤ Real.exp 5 := Real.exp_le_exp.mpr (by norm_num)
  have h5 : Real.exp (5:ℝ) = Real.exp 1 ^ (5:ℕ) := by
    rw [show ((5:ℝ) = ((5:ℕ) : ℝ) * 1) by norm_num, Real.exp_nat_mul]
  have h2 : Real.exp 1 ^ (5:ℕ) ≤ (2.7182818286:ℝ) ^ (5:ℕ) :=
    pow_le_pow_left (le_of_lt (Real.exp_pos 1)) Real.exp_one_lt_d9.le 5
  have h3 : (2.7182818286:ℝ) ^ (5:ℕ) < 2000 := by norm_num
  calc Real.exp ((9:ℝ)/2) ≤ Real.exp 5 := h1
    _ = Real.exp 1 ^ (5:ℕ) := h5
    _ ≤ (2.7182818286:ℝ) ^ (5:ℕ) := h2
    _ < 2000 := h3

lemma exp_neg_nine_halves_gt : (1:ℝ)/2000 < Real.exp (-((9:ℝ)/2)) := by
  rw [Real.exp_neg, inv_eq_one_div]
  exact one_div_lt_one_div_of_lt (Real.exp_pos _) exp_nine_halves_lt_2000

lemma rround3_exp_pos : 0 < rround3 (Real.exp (-((9:ℝ)/2))) := by
  have hb := exp_neg_nine_halves_gt
  have h1 : (1:ℤ) ≤ round (Real.exp (-((9:ℝ)/2)) * 1000) := by
    rw [round_eq]
    rw [Int.le_floor]
    push_cast
    nlinarith [hb]
  rw [rround3]
  have h2 : (1:ℝ) ≤ ((round (Real.exp (-((9:ℝ)/2)) * 1000) : ℤ) : ℝ) := by
    exact_mod_cast h1
  positivity

/-- C7 counterexample: in the utilization computation with default
parameters, a null `burn_days` (average daily spend zero) does *not* score
0: `_calculate_component_scores` replaces the null by 0
(`burn_days if burn_days else 0`, utilizations.py:149) and scores the
Gaussian at 0, giving `round(exp(−(0−30)²/(2·10²)), 3) = 0.011 > 0`. -/
theorem claim_c7_counterexample :
    (calculate_component_scores default_utilization_params
      default_burn_days_params default_daily_spend_params
      (some 0) none (some 0)).burn_days_score =
      rround3 (Real.exp (-((9:ℝ)/2))) ∧
    (calculate_component_scores default_utilization_params
      default_burn_days_params default_daily_spend_params
      (some 0) none (some 0)).burn_days_score ≠ 0 := by
  have hval : (calculate_component_scores default_utilization_params
      default_burn_days_params default_daily_spend_params
      (some 0) none (some 0)).burn_days_score =
      rround3 (Real.exp (-((9:ℝ)/2))) := by
    rw [calculate_component_scores]
    simp only [asymmetric_gaussian_score, Option.getD, default_burn_days_params]
    norm_num
  refine ⟨hval, ?_⟩
  rw [hval]
  exact ne_of_gt rround3_exp_pos

/-- C7 as amended: both Gaussian scorers map a null input to 0, and the
utilization component does receive its possibly-null input — but
`_calculate_component_scores` coerces a null `burn_days` to 0 before
scoring, so for every choice of parameters the burn component of a null
`burn_days` equals the Gaussian evaluated at 0 (with default parameters a
strictly positive 0.011), not 0. -/
theorem claim_c7_amended :
    (∀ mu sigma_left sigma_right : ℝ,
      asymmetric_gaussian_score none mu sigma_left sigma_right = 0) ∧
    (∀ mu sigma : ℝ, gaussian_score none mu sigma = 0) ∧
    (∀ (up bp sp : ℝ × ℝ × ℝ) (util dsr : Option ℝ),
      (calculate_component_scores up bp sp util none dsr).utilization_score =
        rround3 (asymmetric_gaussian_score util up.1 0.5 0.25) ∧
      (calculate_component_scores up bp sp util none dsr).burn_days_score =
        rround3 (asymmetric_gaussian_score (some 0) bp.1 10.0 30.0)) ∧
    0 < (calculate_component_scores default_utilization_params
      default_burn_days_params default_daily_spend_params
      (some 0) none (some 0)).burn_days_score := by
  refine ⟨fun _ _ _ => rfl, fun _ _ => rfl, ?_, ?_⟩
  · intro up bp sp util dsr
    constructor
    · rw [calculate_component_scores]
    · rw [calculate_component_scores]
      simp [Option.getD]
  · have hval : (calculate_component_scores default_utilization_params
        default_burn_days_params default_daily_spend_params
        (some 0) none (some 0)).burn_days_score =
        rround3 (Real.exp (-((9:ℝ)/2))) := by
      rw [calculate_component_scores]
      simp only [asymmetric_gaussian_score, Option.getD, default_burn_days_params]
      norm_num
    rw [hval]
    exact rround3_exp_pos

/-- The default label thresholds (utilizations.py:28-34). -/
def default_label_thresholds : List (ℤ × String) :=
  [(80, "healthy"), (60, "medium-risk"), (40, "high-risk"),
    (20, "very-high-risk"), (0, "critical-risk")]

/-- C8 counterexample: the utilization config does reject bad Gaussian
weights (first conjunct), but `RiskWeightsConfig` is a plain dataclass whose
constructor performs no validation: constructing it with risk component
weights 0.5/0.5/0.5 (sum 1.5, outside 1.0 ± 0.01) succeeds and returns the
record — it does not fail fast as the claim states. -/
theorem claim_c8_counterexample :
    UtilizationConfigRec.construct (0.6, 0.3, 0.45) (30, 15, 0.35)
      (0.033, 0.02, 0.5) default_label_thresholds =
      .error "Weights must sum to 1.0" ∧
    RiskWeightsConfig.construct (1/2) (1/2) (1/2) 10000 25 10 15 (15/2) =
      { balance_weight := 1/2, income_spend_weight := 1/2, nsf_weight := 1/2,
        balance_neg_cap := 10000, nsf_penalty := 25, payback_penalty := 10,
        util_penalty_high_risk := 15, util_penalty_medium_risk := 15/2 } ∧
    |((1:ℚ)/2 + 1/2 + 1/2) - 1| > 1/100 := by
  refine ⟨?_, rfl, by norm_num [abs_of_nonneg]⟩
  rw [UtilizationConfigRec.construct]
  rw [if_pos (by norm_num [abs_of_nonneg])]

/-- C8 as amended: only the utilization Gaussian weight configuration fails
fast when its three weights do not sum to 1.0 within ±0.01;
`RiskWeightsConfig` (balance / income-spend / NSF weights) performs no
validation at construction and accepts any weights. -/
theorem claim_c8_amended (up bp sp : ℚ × ℚ × ℚ)
    (thresholds : List (ℤ × String))
    (h : |up.2.2 + bp.2.2 + sp.2.2 - 1| > 1/100) :
    UtilizationConfigRec.construct up bp sp thresholds =
      .error "Weights must sum to 1.0" ∧
    (∀ (bw iw nw : ℚ) (cap : ℤ) (np pp uh um : ℚ),
      RiskWeightsConfig.construct bw iw nw cap np pp uh um =
        ⟨bw, iw, nw, cap, np, pp, uh, um⟩) := by
  constructor
  · rw [UtilizationConfigRec.construct]
    rw [if_pos h]
  · intro bw iw nw cap np pp uh um
    rfl

/-- C8 amended witness: the theorem applied to weights summing to 1.3. -/
theorem claim_c8_amended_witness :
    |((0.45:ℚ) + 0.35 + 0.5) - 1| > 1/100 ∧
    UtilizationConfigRec.construct (0.6, 0.3, 0.45) (30, 15, 0.35)
      (0.033, 0.02, 0.5) default_label_thresholds =
      .error "Weights must sum to 1.0" := by
  refine ⟨by norm_num [abs_of_nonneg], ?_⟩
  exact (claim_c8_amended (0.6, 0.3, 0.45) (30, 15, 0.35) (0.033, 0.02, 0.5)
    default_label_thresholds (by norm_num [abs_of_nonneg])).1

lemma clampQ_mono (a b lo hi : ℚ) (h : a ≤ b) :
    clampQ a lo hi ≤ clampQ b lo hi :=
  max_le_max le_rfl (min_le_min le_rfl h)

lemma nsf_score_antitone (n1 n2 : ℕ) (h : n1 ≤ n2) :
    calculate_nsf_score n2 25 ≤ calculate_nsf_score n1 25 := by
  apply clampQ_mono
  have hc : (n1:ℚ) ≤ (n2:ℚ) := by exact_mod_cast h
  linarith

lemma risk_final_score_antitone (bs ispend up pp : ℚ) (n1 n2 : ℕ)
    (h : n1 ≤ n2) :
    risk_final_score bs ispend n2 up pp ≤ risk_final_score bs ispend n1 up pp := by
  have hns := nsf_score_antitone n1 n2 h
  show max 0 (min 100 (calculate_final_score bs ispend
      (calculate_nsf_score n2 25) (1/2) (3/10) (1/5) up - pp)) ≤
    max 0 (min 100 (calculate_final_score bs ispend
      (calculate_nsf_score n1 25) (1/2) (3/10) (1/5) up - pp))
  apply max_le_max le_rfl
  apply min_le_min le_rfl
  have hbase : calculate_final_score bs ispend (calculate_nsf_score n2 25)
      (1/2) (3/10) (1/5) up ≤
      calculate_final_score bs ispend (calculate_nsf_score n1 25)
      (1/2) (3/10) (1/5) up := by
    apply clampQ_mono
    linarith
  linarith

/-- Tier-limit monotonicity in the final score at the default tier limits
and thresholds. -/
lemma tier_limit_mono (ul pl : String) (nsf : ℕ) (cd : Bool) (s1 s2 : ℚ)
    (h : s1 ≤ s2) :
    (determine_bnpl_tier defaultBNPLTierConfig s1 ul pl nsf cd).2 ≤
    (determine_bnpl_tier defaultBNPLTierConfig s2 ul pl nsf cd).2 := by
  by_cases hcd : cd = true
  · simp [determine_bnpl_tier, hcd]
  · by_cases hu : ul = "healthy" ∨ ul = "medium-risk"
    all_goals by_cases hp : pl = "positive" ∨ pl = "neutral"
    all_goals simp only [determine_bnpl_tier, defaultBNPLTierConfig, hcd, hu,
      hp, true_and, and_true, false_and, and_false, if_false, if_true,
      iff_true, Bool.false_eq_true]
    all_goals try split_ifs
    all_goals first | rfl | linarith | norm_num

/-- C9: with utilization label, payback label, cooldown status, nsf count
and the default tier limits and thresholds fixed, a higher final score never
selects a smaller tier limit; and with the other risk inputs fixed, a higher
NSF count never increases the final score (weights 0.5/0.3/0.2, NSF penalty
25) nor the tier limit it selects. -/
theorem claim_c9 :
    (∀ (ul pl : String) (nsf_count : ℕ) (cooldown : Bool) (s1 s2 : ℚ),
      s1 ≤ s2 →
      (determine_bnpl_tier defaultBNPLTierConfig s1 ul pl nsf_count cooldown).2 ≤
      (determine_bnpl_tier defaultBNPLTierConfig s2 ul pl nsf_count cooldown).2) ∧
    (∀ (balance_score income_spend_score utilization_penalty payback_penalty : ℚ)
      (ul pl : String) (cooldown : Bool) (n1 n2 : ℕ), n1 ≤ n2 →
      risk_final_score balance_score income_spend_score n2
        utilization_penalty payback_penalty ≤
      risk_final_score balance_score income_spend_score n1
        utilization_penalty payback_penalty ∧
      (determine_bnpl_tier defaultBNPLTierConfig
        (risk_final_score balance_score income_spend_score n2
          utilization_penalty payback_penalty) ul pl n2 cooldown).2 ≤
      (determine_bnpl_tier defaultBNPLTierConfig
        (risk_final_score balance_score income_spend_score n1
          utilization_penalty payback_penalty) ul pl n1 cooldown).2) := by
  constructor
  · exact fun ul pl nsf cd s1 s2 h => tier_limit_mono ul pl nsf cd s1 s2 h
  · intro bs ispend up pp ul pl cd n1 n2 h
    have hfs := risk_final_score_antitone bs ispend up pp n1 n2 h
    refine ⟨hfs, ?_⟩
    have h1 := tier_limit_mono ul pl n1 cd _ _ hfs
    have h2 : (determine_bnpl_tier defaultBNPLTierConfig
        (risk_final_score bs ispend n2 up pp) ul pl n2 cd).2 =
        (determine_bnpl_tier defaultBNPLTierConfig
        (risk_final_score bs ispend n2 up pp) ul pl n1 cd).2 := rfl
    rw [h2]
    exact h1

/-- C9 witness: score 40 → Tier C limit (6000) versus score 80 → Tier A
limit (20000); and NSF count 2 → 5 does not increase the final score. -/
theorem claim_c9_witness :
    (40:ℚ) ≤ 80 ∧
    (determine_bnpl_tier defaultBNPLTierConfig 40 "healthy" "positive" 0
      false).2 ≤
    (determine_bnpl_tier defaultBNPLTierConfig 80 "healthy" "positive" 0
      false).2 ∧
    (determine_bnpl_tier defaultBNPLTierConfig 40 "healthy" "positive" 0
      false).2 = 6000 ∧
    (determine_bnpl_tier defaultBNPLTierConfig 80 "healthy" "positive" 0
      false).2 = 20000 ∧
    (2:ℕ) ≤ 5 ∧
    risk_final_score 100 100 5 0 0 ≤ risk_final_score 100 100 2 0 0 := by
  refine ⟨by norm_num,
    claim_c9.1 "healthy" "positive" 0 false 40 80 (by norm_num), ?_, ?_,
    by norm_num,
    (claim_c9.2 100 100 0 0 "healthy" "positive" false 2 5 (by norm_num)).1⟩
  · norm_num [determine_bnpl_tier, defaultBNPLTierConfig]
  · norm_num [determine_bnpl_tier, defaultBNPLTierConfig]

/-- C10: the bank-API mapper always produces a non-null balance: reading the
mapped transaction the way the domain services do gives
`balance_cents = some _` for every raw input; a null, missing or zero
upstream balance (both keys) is coerced to 0, a missing amount becomes 0,
and a missing type defaults to "debit", with the type always lowercased. -/
theorem claim_c10 (raw : RawTransaction) (now : ℤ) :
    (map_to_domain_entity raw now).toInternal.balance_cents =
      some ((map_to_domain_entity raw now).balance_cents) ∧
    ((raw.balance_cents = none ∨ raw.balance_cents = some 0) →
      (raw.balance = none ∨ raw.balance = some 0) →
      (map_to_domain_entity raw now).balance_cents = 0) ∧
    ((raw.amount_cents = none ∨ raw.amount_cents = some 0) →
      (raw.amount = none ∨ raw.amount = some 0) →
      (map_to_domain_entity raw now).amount_cents = 0) ∧
    ((raw.type = none ∨ raw.type = some "") →
      (raw.transaction_type = none ∨ raw.transaction_type = some "") →
      (map_to_domain_entity raw now).type = "debit") ∧
    (map_to_domain_entity raw now).type =
      str_lower (pyOrStr raw.type raw.transaction_type "debit") := by
  refine ⟨rfl, ?_, ?_, ?_, rfl⟩
  · rintro (hb | hb) (hc | hc) <;>
      simp [map_to_domain_entity, pyOrInt, truthyInt, hb, hc]
  · rintro (hb | hb) (hc | hc) <;>
      simp [map_to_domain_entity, pyOrInt, truthyInt, hb, hc]
  · rintro (hb | hb) (hc | hc) <;>
      simp [map_to_domain_entity, pyOrStr, truthyStr, hb, hc] <;> decide

/-- C10 witness: the mapper applied to a raw transaction with every key
missing. -/
theorem claim_c10_witness :
    ((none : Option ℤ) = none ∨ (none : Option ℤ) = some 0) ∧
    (map_to_domain_entity ⟨none, none, none, none, none, none, none, none,
      none, none, none, none, none, none, none, none⟩ 7).balance_cents = 0 ∧
    (map_to_domain_entity ⟨none, none, none, none, none, none, none, none,
      none, none, none, none, none, none, none, none⟩ 7).type = "debit" := by
  have h := claim_c10 ⟨none, none, none, none, none, none, none, none,
    none, none, none, none, none, none, none, none⟩ 7
  exact ⟨Or.inl rfl, h.2.1 (Or.inl rfl) (Or.inl rfl),
    h.2.2.2.1 (Or.inl rfl) (Or.inl rfl)⟩

end Gerald
